import Mathlib

/-
  Verification of the DS1307newAlarms library (DS1307new.cpp / DS1307new.h).

  The C++ code is shallowly embedded: every machine-integer operation is
  modelled on Nat with an explicit reduction modulo 2^8, 2^16 or 2^32 at
  each point where the C type system truncates a value, and signed `int`
  intermediates are modelled on Int with `emod` at the conversion back to
  an unsigned type.  The shared DS1307new object state (civil fields plus
  derived day counters) is a record, and the NV-RAM of the chip is a
  byte-addressed store.
-/

namespace DS1307

/-- uint8_t DS1307new::is_leap_year(uint16_t y). -/
def is_leap_year (y : Nat) : Nat :=
  if (y % 4 = 0 ∧ y % 100 ≠ 0) ∨ y % 400 = 0 then 1 else 0

/-- Arithmetic core of DS1307new::calculate_ydn (the Robertson forward
conversion), abstracted over the leap flag is_leap_year(year).
tmp1 is a uint8_t, tmp2 a uint16_t; month and day are uint8_t fields. -/
def ydn_calc (leap month day : Nat) : Nat :=
  let tmp1 : Nat := if 3 ≤ month then 1 else 0
  let tmp2 := (month + 2) % 65536
  let tmp2 := tmp2 * 611 % 65536
  let tmp2 := tmp2 / 20
  let tmp2 := (tmp2 + day) % 65536
  let tmp2 := (tmp2 + 65536 - 91) % 65536
  let tmp1 := tmp1 * 2 % 256
  let tmp2 := (tmp2 + 65536 - tmp1) % 65536
  if tmp1 ≠ 0 then (tmp2 + leap) % 65536 else tmp2

/-- void DS1307new::calculate_ydn(void), as a function of the fields it reads. -/
def ydn_from_ymd (year month day : Nat) : Nat :=
  ydn_calc (is_leap_year year) month day

/-- Arithmetic core of DS1307new::_corrected_year_day_number, abstracted over
the leap flag.  corrected_ydn is a uint16_t, a is a uint8_t. -/
def corrected_ydn_calc (leap ydn : Nat) : Nat :=
  let c := ydn
  let c := if (59 + leap) % 256 < c then ((c + 2) % 65536 + 65536 - leap) % 65536 else c
  (c + 91) % 65536

/-- Arithmetic core of DS1307new::calculate_month_by_year_and_ydn
(the Robertson inverse conversion, month part), abstracted over the leap flag. -/
def month_calc (leap ydn : Nat) : Nat :=
  let c := corrected_ydn_calc leap ydn
  let c := c * 20 % 65536
  let c := c / 611
  let a := c % 256
  (a + 256 - 2) % 256

/-- void DS1307new::calculate_month_by_year_and_ydn(void), as a function of the
fields it reads. -/
def month_from_year_and_ydn (year ydn : Nat) : Nat :=
  month_calc (is_leap_year year) ydn

/-- Arithmetic core of DS1307new::calculate_day_by_month_year_and_ydn
(the Robertson inverse conversion, day part), abstracted over the leap flag. -/
def day_calc (leap month ydn : Nat) : Nat :=
  let m := (month + 2) % 256
  let c := corrected_ydn_calc leap ydn
  let tmp := 611 * m % 65536
  let tmp := tmp / 20
  ((c + 65536 - tmp) % 65536) % 256

/-- void DS1307new::calculate_day_by_month_year_and_ydn(void), as a function of
the fields it reads. -/
def day_from_month_year_and_ydn (year month ydn : Nat) : Nat :=
  day_calc (is_leap_year year) month ydn

/-- Loop body of void DS1307new::calculate_cdn(void): the while loop runs
exactly year - 2000 iterations, accumulating 365 + is_leap_year for each
year below the current one, into the uint16_t cdn. -/
def cdn_add_years : Nat → Nat → Nat
  | 0, c => c
  | n + 1, c => cdn_add_years n ((c + 365 + is_leap_year (2000 + n)) % 65536)

/-- void DS1307new::calculate_cdn(void): cdn = ydn; cdn--; then the year loop. -/
def cdn_from_year_and_ydn (year ydn : Nat) : Nat :=
  cdn_add_years (year - 2000) ((ydn + 65536 - 1) % 65536)

/-- void DS1307new::calculate_dow(void): tmp is a uint16_t. -/
def dow_from_cdn (cdn : Nat) : Nat :=
  ((cdn + 6) % 65536) % 7

/-- void DS1307new::calculate_time2000(void): uint32_t accumulation
t = ((cdn * 24 + hour) * 60 + minute) * 60 + second, truncated mod 2^32. -/
def time2000_from (cdn hour minute second : Nat) : Nat :=
  let t := cdn % 4294967296
  let t := t * 24 % 4294967296
  let t := (t + hour) % 4294967296
  let t := t * 60 % 4294967296
  let t := (t + minute) % 4294967296
  let t := t * 60 % 4294967296
  (t + second) % 4294967296

/-- The shared DS1307new object state: uint8_t second/minute/hour/dow/day/month,
uint16_t year/ydn/cdn, uint32_t time2000. -/
structure State where
  second : Nat
  minute : Nat
  hour : Nat
  dow : Nat
  day : Nat
  month : Nat
  year : Nat
  ydn : Nat
  cdn : Nat
  time2000 : Nat
deriving DecidableEq, Repr

def calculate_ydn (s : State) : State :=
  { s with ydn := ydn_from_ymd s.year s.month s.day }

def calculate_cdn (s : State) : State :=
  { s with cdn := cdn_from_year_and_ydn s.year s.ydn }

def calculate_dow (s : State) : State :=
  { s with dow := dow_from_cdn s.cdn }

def calculate_time2000 (s : State) : State :=
  { s with time2000 := time2000_from s.cdn s.hour s.minute s.second }

def calculate_month_by_year_and_ydn (s : State) : State :=
  { s with month := month_from_year_and_ydn s.year s.ydn }

def calculate_day_by_month_year_and_ydn (s : State) : State :=
  { s with day := day_from_month_year_and_ydn s.year s.month s.ydn }

/-- The for(;;) year-search loop of void DS1307new::fillByCDN(uint16_t),
written with an explicit iteration budget (first argument).  Each iteration
that does not break subtracts days_per_year = 365 + is_leap_year(y) >= 365
from _cdn, so on the uint16_t domain (_cdn < 65536) at most 180 iterations
can occur; fillByCDN_loopF_stable below proves that any budget of at least
180 yields the same result, i.e. the budget is not a semantic restriction.
The running year y is a uint16_t. -/
def fillByCDN_loopF : Nat → Nat → Nat → Nat × Nat
  | 0, _cdn, y => (y, _cdn)
  | fuel + 1, _cdn, y =>
    let days_per_year := 365 + is_leap_year y
    if days_per_year ≤ _cdn then
      fillByCDN_loopF fuel (_cdn - days_per_year) ((y + 1) % 65536)
    else
      (y, _cdn)

/-- The year-search loop of fillByCDN started at y = 2000 with a sufficient
iteration budget for the whole uint16_t domain of _cdn. -/
def fillByCDN_loop (_cdn : Nat) : Nat × Nat :=
  fillByCDN_loopF 180 _cdn 2000

/-- void DS1307new::fillByCDN(uint16_t _cdn).  The parameter is a uint16_t,
so a wider caller argument is truncated mod 2^16. -/
def fillByCDN (s : State) (c : Nat) : State :=
  let _cdn := c % 65536
  let p := fillByCDN_loop _cdn
  let s := { s with cdn := _cdn, year := p.1, ydn := (p.2 + 1) % 65536 }
  let s := calculate_dow s
  let s := calculate_month_by_year_and_ydn s
  let s := calculate_day_by_month_year_and_ydn s
  calculate_time2000 s

/-- void DS1307new::fillByTime2000(uint32_t _time2000).  The remaining whole
day count _time2000/86400 is passed to fillByCDN through a uint16_t parameter. -/
def fillByTime2000 (s : State) (t : Nat) : State :=
  let t0 := t % 4294967296
  let s := { s with time2000 := t0, second := t0 % 60 }
  let t1 := t0 / 60
  let s := { s with minute := t1 % 60 }
  let t2 := t1 / 60
  let s := { s with hour := t2 % 24 }
  fillByCDN s (t2 / 24)

/-- void DS1307new::fillByHMS(uint8_t h, uint8_t m, uint8_t s). -/
def fillByHMS (s : State) (h m sec : Nat) : State :=
  calculate_time2000 { s with hour := h % 256, minute := m % 256, second := sec % 256 }

/-- void DS1307new::fillByYMD(uint16_t y, uint8_t m, uint8_t d). -/
def fillByYMD (s : State) (y m d : Nat) : State :=
  let s := { s with year := y % 65536, month := m % 256, day := d % 256 }
  calculate_time2000 (calculate_dow (calculate_cdn (calculate_ydn s)))

/-- uint8_t DS1307new::isCETSummerTime(void).  Returns the uint8_t result
together with the state of the shared object after the call.  The two
fillByCDN arguments model the int subtraction RTC.cdn - RTC.dow converted
back to the uint16_t parameter; at both call sites dow has just been
recomputed by calculate_dow and hence is below 7, and cdn is below 2^16,
so the conversion is (cdn + 65536 - dow) % 65536. -/
def isCETSummerTime (s : State) : Nat × State :=
  let current_time := s.time2000
  let s1 := fillByHMS (fillByYMD s s.year 3 30) 2 0 0
  let s2 := fillByCDN s1 ((s1.cdn + 65536 - s1.dow) % 65536)
  let summer_start := s2.time2000
  let s3 := fillByHMS (fillByYMD s2 s2.year 10 31) 3 0 0
  let s4 := fillByCDN s3 ((s3.cdn + 65536 - s3.dow) % 65536)
  let winter_start := s4.time2000
  let s5 := fillByTime2000 s4 current_time
  let result := if summer_start ≤ current_time ∧ current_time < winter_start then 1 else 0
  (result, s5)

/-! ## Alarm store (NV-RAM backed) -/

/-- NV-RAM of the chip, modelled as a byte-addressed store.  Each cell holds
one byte; getRAM reduces the looked-up value mod 256 so that every function
of this type denotes a byte store. -/
def Ram : Type := Nat → Nat

/-- Write of one byte (setRAM with rtc_quantity = 1): the cell is a uint8_t. -/
def setRAM (r : Ram) (addr value : Nat) : Ram :=
  fun a => if a = addr then value % 256 else r a

/-- Read of one byte (getRAM with rtc_quantity = 1). -/
def getRAM (r : Ram) (addr : Nat) : Nat :=
  r addr % 256

/-- The erased / all-zero NV-RAM. -/
def ramZero : Ram := fun _ => 0

/-- Constructor value: alarmBitsAddress = 1. -/
def alarmBitsAddress : Nat := 1

/-- Constructor value: alarmCodeAddressOffset = 2. -/
def alarmCodeAddressOffset : Nat := 2

/-- The alarm-code expression of boolean DS1307new::setAlarm(uint8_t, uint8_t,
uint8_t): uint8_t alarmCode = (alarmHour - 4) * 12 + alarmMinutes / 5.  The
right-hand side is computed in int (integer promotion) and converted to
uint8_t, hence the emod 256 on Int. -/
def alarm_code_of (alarmHour alarmMinutes : Nat) : Nat :=
  ((((alarmHour : Int) - 4) * 12 + ((alarmMinutes / 5 : Nat) : Int)) % 256).toNat

/-- void DS1307new::setAlarm(uint8_t dayOfWeek, uint8_t alarmCode): ORs the
day bit into the alarm-bits byte and stores the code byte. -/
def setAlarm_code (r : Ram) (dayOfWeek alarmCode : Nat) : Ram :=
  let currentAlarmBits := getRAM r alarmBitsAddress
  let alarmBitMask := (1 <<< dayOfWeek) % 256
  let r1 := setRAM r alarmBitsAddress (currentAlarmBits ||| alarmBitMask)
  setRAM r1 (alarmCodeAddressOffset + dayOfWeek) alarmCode

/-- boolean DS1307new::setAlarm(uint8_t dayOfWeek, uint8_t alarmHour, uint8_t
alarmMinutes): returns the boolean result together with the NV-RAM after the
call.  The guard is the source's alarmHour >= 4 || alarmHour < 21. -/
def setAlarm_hms (r : Ram) (dayOfWeek alarmHour alarmMinutes : Nat) : Bool × Ram :=
  if 4 ≤ alarmHour ∨ alarmHour < 21 then
    (true, setAlarm_code r dayOfWeek (alarm_code_of alarmHour alarmMinutes))
  else
    (false, r)

/-- boolean DS1307new::clearAlarm(uint8_t dayOfWeek): writes 0xFF to the code
byte, then subtracts the day mask from the alarm-bits byte (uint8_t
subtraction, so it wraps mod 256 when the bit was not set). -/
def clearAlarm (r : Ram) (dayOfWeek : Nat) : Ram :=
  let r1 := setRAM r (alarmCodeAddressOffset + dayOfWeek) 0xFF
  let value := getRAM r1 alarmBitsAddress
  let mask := (1 <<< dayOfWeek) % 256
  let value := (value + 256 - mask) % 256
  setRAM r1 alarmBitsAddress value

/-- The alarm-time decoding of boolean DS1307new::isAlarmTime():
alarmHour = alarmCode / 12; alarmMinute = (alarmCode - alarmHour * 12) * 5;
alarmHour += 4 (all uint8_t; the argument is the byte read from NV-RAM). -/
def alarm_decode (alarmCode : Nat) : Nat × Nat :=
  let alarmHour := alarmCode / 12
  let alarmMinute := ((alarmCode - alarmHour * 12) * 5) % 256
  ((alarmHour + 4) % 256, alarmMinute)

/-- State visible to boolean DS1307new::isAlarmTime(): the NV-RAM, the dow,
hour and minute fields of the shared object, and the private member
long alarmTriggeredTime. -/
structure AlarmState where
  ram : Ram
  dow : Nat
  hour : Nat
  minute : Nat
  alarmTriggeredTime : Nat

/-- boolean DS1307new::isAlarmTime().  micros_now is the value the external
monotonic clock call micros() returns during this call.  The result is the
returned boolean together with the updated state (only alarmTriggeredTime is
ever written). -/
def isAlarmTime (s : AlarmState) (micros_now : Nat) : Bool × AlarmState :=
  let currentAlarmBits := getRAM s.ram alarmBitsAddress
  let currentDayOfWeekMask := (1 <<< s.dow) % 256
  if 0 < currentAlarmBits &&& currentDayOfWeekMask then
    let alarmCode := getRAM s.ram (alarmCodeAddressOffset + s.dow)
    let alarmHour := alarmCode / 12
    let alarmMinute := ((alarmCode - alarmHour * 12) * 5) % 256
    let alarmHour := (alarmHour + 4) % 256
    let p :=
      if s.alarmTriggeredTime = 0 ∧ alarmHour ≤ s.hour ∧ alarmMinute ≤ s.minute then
        (true, micros_now)
      else
        (false, s.alarmTriggeredTime)
    let att := if s.hour = 0 ∧ s.minute = 0 then 0 else p.2
    (p.1, { s with alarmTriggeredTime := att })
  else
    (false, s)

/-- Month lengths of the civil calendar, parameterized by the leap flag:
the validity domain of (month, day) pairs named by the specification. -/
def days_in_month (leap m : Nat) : Nat :=
  if m = 1 then 31
  else if m = 2 then 28 + leap
  else if m = 4 ∨ m = 6 ∨ m = 9 ∨ m = 11 then 30
  else 31

/-! ## Theorems -/

set_option maxRecDepth 10000

set_option maxHeartbeats 2000000

/-- is_leap_year returns 0 or 1. -/
theorem is_leap_year_lt_two (y : Nat) : is_leap_year y < 2 := by
  unfold is_leap_year
  split <;> omega

/-- Month lengths never exceed 31 when the leap flag is a flag. -/
theorem days_in_month_le_31 (L m : Nat) (hL : L ≤ 1) : days_in_month L m ≤ 31 := by
  unfold days_in_month
  split
  · omega
  · split
    · omega
    · split <;> omega

/-- Exhaustive check of the Robertson forward/inverse round-trip over the
valid (leap flag, month, day) domain. -/
theorem robertson_inv_fin : ∀ (L : Fin 2) (m : Fin 12) (d : Fin 31),
    d.1 + 1 ≤ days_in_month L.1 (m.1 + 1) →
      month_calc L.1 (ydn_calc L.1 (m.1 + 1) (d.1 + 1)) = m.1 + 1 ∧
      day_calc L.1 (month_calc L.1 (ydn_calc L.1 (m.1 + 1) (d.1 + 1)))
        (ydn_calc L.1 (m.1 + 1) (d.1 + 1)) = d.1 + 1 := by
  decide

/-- Claim C1: for every year in [2000, 2135], month in 1..12 and day within that
month's length (including leap Februaries), computing the year-day-number via
calculate_ydn and recovering month and day via calculate_month_by_year_and_ydn
and calculate_day_by_month_year_and_ydn returns exactly the original month and
day. -/
theorem calculate_ydn_month_day_roundtrip (y m d : Nat)
    (hy1 : 2000 ≤ y) (hy2 : y ≤ 2135) (hm1 : 1 ≤ m) (hm2 : m ≤ 12)
    (hd1 : 1 ≤ d) (hd2 : d ≤ days_in_month (is_leap_year y) m) :
    month_from_year_and_ydn y (ydn_from_ymd y m d) = m ∧
    day_from_month_year_and_ydn y (month_from_year_and_ydn y (ydn_from_ymd y m d))
      (ydn_from_ymd y m d) = d := by
  have hL := is_leap_year_lt_two y
  have hd31 : d ≤ 31 :=
    le_trans hd2 (days_in_month_le_31 (is_leap_year y) m (by omega))
  have key : d - 1 + 1 ≤ days_in_month (is_leap_year y) (m - 1 + 1) →
      month_calc (is_leap_year y) (ydn_calc (is_leap_year y) (m - 1 + 1) (d - 1 + 1)) = m - 1 + 1 ∧
      day_calc (is_leap_year y)
        (month_calc (is_leap_year y) (ydn_calc (is_leap_year y) (m - 1 + 1) (d - 1 + 1)))
        (ydn_calc (is_leap_year y) (m - 1 + 1) (d - 1 + 1)) = d - 1 + 1 :=
    robertson_inv_fin ⟨is_leap_year y, hL⟩ ⟨m - 1, by omega⟩ ⟨d - 1, by omega⟩
  rw [Nat.sub_add_cancel hm1, Nat.sub_add_cancel hd1] at key
  unfold month_from_year_and_ydn day_from_month_year_and_ydn ydn_from_ymd
  exact key hd2

/-- Witness for C1 at the leap-February corner 2024-02-29. -/
theorem calculate_ydn_month_day_roundtrip_witness :
    2000 ≤ 2024 ∧ 2024 ≤ 2135 ∧ 1 ≤ 2 ∧ 2 ≤ 12 ∧ 1 ≤ 29 ∧
    29 ≤ days_in_month (is_leap_year 2024) 2 ∧
    (month_from_year_and_ydn 2024 (ydn_from_ymd 2024 2 29) = 2 ∧
     day_from_month_year_and_ydn 2024 (month_from_year_and_ydn 2024 (ydn_from_ymd 2024 2 29))
       (ydn_from_ymd 2024 2 29) = 29) :=
  ⟨by decide, by decide, by decide, by decide, by decide, by decide,
   calculate_ydn_month_day_roundtrip 2024 2 29 (by decide) (by decide) (by decide)
     (by decide) (by decide) (by decide)⟩

/-- Exhaustive check of the alarm encode/decode round-trip over the
valid (hour, minute) grid. -/
theorem alarm_encode_decode_fin : ∀ (h : Fin 8) (m : Fin 12),
    alarm_decode (alarm_code_of (h.1 + 4) (m.1 * 5)) = (h.1 + 4, m.1 * 5) := by
  decide

/-- Claim C6: for every hour in [4, 11] and minute in {0, 5, ..., 55}, decoding the
encoded alarm code reproduces the input exactly. -/
theorem alarm_decode_encode_roundtrip (h m : Nat) (h4 : 4 ≤ h) (h11 : h ≤ 11)
    (hm : m ≤ 55) (hm5 : m % 5 = 0) :
    alarm_decode (alarm_code_of h m) = (h, m) := by
  have key := alarm_encode_decode_fin ⟨h - 4, by omega⟩ ⟨m / 5, by omega⟩
  have e1 : h - 4 + 4 = h := by omega
  have e2 : m / 5 * 5 = m := by omega
  rw [e1, e2] at key
  exact key

/-- Witness for C6 at 06:30. -/
theorem alarm_decode_encode_roundtrip_witness :
    4 ≤ 6 ∧ 6 ≤ 11 ∧ 30 ≤ 55 ∧ 30 % 5 = 0 ∧ alarm_decode (alarm_code_of 6 30) = (6, 30) :=
  ⟨by decide, by decide, by decide, by decide,
   alarm_decode_encode_roundtrip 6 30 (by decide) (by decide) (by decide) (by decide)⟩

/-- Claim C3: evaluation of the three-argument setAlarm at hour 3 < 4: because the
source guard alarmHour >= 4 || alarmHour < 21 is always true, the call
returns true and writes code byte 244 (the uint8_t wrap of (3 - 4) * 12 + 0)
and alarm bit 0, instead of failing silently with no write. -/
theorem setAlarm_hms_low_hour_eval :
    (setAlarm_hms ramZero 0 3 0).1 = true ∧
    getRAM (setAlarm_hms ramZero 0 3 0).2 (alarmCodeAddressOffset + 0) = 244 ∧
    getRAM (setAlarm_hms ramZero 0 3 0).2 alarmBitsAddress = 1 := by
  decide

/-- Claim C5: evaluation of clearAlarm(0) on the all-zero NV-RAM, where bit 0 of the
alarm-bits byte is clear: the uint8_t subtraction value - mask wraps and the
alarm-bits byte becomes 255, so bit 0 ends up set and every other bit is
flipped, instead of bit 0 staying clear with the other bits unchanged.  The
code byte is set to 0xFF as documented. -/
theorem clearAlarm_unset_bit_eval :
    getRAM (clearAlarm ramZero 0) alarmBitsAddress = 255 ∧
    getRAM (clearAlarm ramZero 0) (alarmCodeAddressOffset + 0) = 255 := by
  decide

/-- For hours at least 4 the int expression of setAlarm reduces to plain
Nat arithmetic. -/
theorem alarm_code_of_eq (h m : Nat) (h4 : 4 ≤ h) :
    alarm_code_of h m = ((h - 4) * 12 + m / 5) % 256 := by
  unfold alarm_code_of
  omega

/-- Claim C9 amended: for every hour in [4, 12) and minute in [0, 59], the code
computed and stored by the three-argument setAlarm lies in the range 0..95
(not 0..71: hours 10 and 11 produce codes 72..95). -/
theorem setAlarm_code_range_amended (r : Ram) (w h m : Nat) (hw : w ≤ 6)
    (h4 : 4 ≤ h) (h12 : h < 12) (hm : m ≤ 59) :
    getRAM (setAlarm_hms r w h m).2 (alarmCodeAddressOffset + w) = alarm_code_of h m ∧
    alarm_code_of h m ≤ 95 := by
  have hcode := alarm_code_of_eq h m h4
  have hsmall : (h - 4) * 12 + m / 5 ≤ 95 := by omega
  have hlt : alarm_code_of h m ≤ 95 := by
    rw [hcode, Nat.mod_eq_of_lt (by omega)]
    exact hsmall
  refine ⟨?_, hlt⟩
  unfold setAlarm_hms
  rw [if_pos (Or.inl h4)]
  unfold setAlarm_code getRAM setRAM
  simp only [if_pos rfl]
  omega

/-- Witness for C9 amended at the extreme point setAlarm(6, 11, 59). -/
theorem setAlarm_code_range_amended_witness :
    6 ≤ 6 ∧ 4 ≤ 11 ∧ 11 < 12 ∧ 59 ≤ 59 ∧
    (getRAM (setAlarm_hms ramZero 6 11 59).2 (alarmCodeAddressOffset + 6) = alarm_code_of 11 59 ∧
     alarm_code_of 11 59 ≤ 95) :=
  ⟨by decide, by decide, by decide, by decide,
   setAlarm_code_range_amended ramZero 6 11 59 (by decide) (by decide) (by decide) (by decide)⟩

/-- Claim C9 counterexample: setAlarm(0, 10, 0) is in the claimed domain
(hour in [4,12), minute in [0,59]) but computes and stores code 72, which is
outside the claimed range 0..71. -/
theorem setAlarm_code_range_counterexample :
    4 ≤ 10 ∧ 10 < 12 ∧ (0 : Nat) ≤ 59 ∧
    getRAM (setAlarm_hms ramZero 0 10 0).2 (alarmCodeAddressOffset + 0) = 72 ∧
    ¬(72 ≤ 71) := by
  decide

/-- Claim C4 counterexample: with the alarm bit for day 3 set, stored code 30
(decoding to 06:30), latch clear, and current time 07:00, the decoded alarm
time is less-than-or-equal to the current time under the hour-then-minute
lexicographic comparison, yet isAlarmTime returns false (the source compares
hour >= alarmHour AND minute >= alarmMinute, which fails on minute). -/
theorem isAlarmTime_lex_counterexample :
    0 < getRAM (setAlarm_code ramZero 3 30) alarmBitsAddress &&& ((1 <<< 3) % 256) ∧
    alarm_decode (getRAM (setAlarm_code ramZero 3 30) (alarmCodeAddressOffset + 3)) = (6, 30) ∧
    (6 < 7 ∨ (6 = 7 ∧ 30 ≤ 0)) ∧
    (isAlarmTime ⟨setAlarm_code ramZero 3 30, 3, 7, 0, 0⟩ 99).1 = false := by
  decide

/-- Claim C4 amended: with the alarm bit for the current day set and the latch
clear, isAlarmTime returns true exactly when the decoded alarm hour is at
most the current hour AND the decoded alarm minute is at most the current
minute (a pointwise comparison on both fields, not a lexicographic one). -/
theorem isAlarmTime_compare_amended (r : Ram) (d h m μ : Nat)
    (hbit : 0 < getRAM r alarmBitsAddress &&& ((1 <<< d) % 256)) :
    ((isAlarmTime ⟨r, d, h, m, 0⟩ μ).1 = true ↔
      ((alarm_decode (getRAM r (alarmCodeAddressOffset + d))).1 ≤ h ∧
       (alarm_decode (getRAM r (alarmCodeAddressOffset + d))).2 ≤ m)) := by
  unfold isAlarmTime alarm_decode
  simp only []
  rw [if_pos hbit]
  split
  · next hc => simp only [true_iff]; exact ⟨hc.2.1, hc.2.2⟩
  · next hc =>
    simp only [Bool.false_eq_true, false_iff]
    intro hcontra
    exact hc ⟨trivial, hcontra.1, hcontra.2⟩

/-- Witness for C4 amended: alarm 06:30 on day 3, checked at 06:35. -/
theorem isAlarmTime_compare_amended_witness :
    0 < getRAM (setAlarm_code ramZero 3 30) alarmBitsAddress &&& ((1 <<< 3) % 256) ∧
    ((isAlarmTime ⟨setAlarm_code ramZero 3 30, 3, 6, 35, 0⟩ 42).1 = true ↔
      ((alarm_decode (getRAM (setAlarm_code ramZero 3 30) (alarmCodeAddressOffset + 3))).1 ≤ 6 ∧
       (alarm_decode (getRAM (setAlarm_code ramZero 3 30) (alarmCodeAddressOffset + 3))).2 ≤ 35)) :=
  ⟨by decide, isAlarmTime_compare_amended (setAlarm_code ramZero 3 30) 3 6 35 42 (by decide)⟩

/-- Claim C8 counterexample: a call to isAlarmTime with hour = 0 and minute = 0 but
no alarm bit set for the current day leaves the latch at its old nonzero
value 5: the midnight reset only runs inside the bit-set branch, so it is not
performed regardless of which alarm bits are set. -/
theorem isAlarmTime_midnight_counterexample :
    (5 : Nat) ≠ 0 ∧
    (isAlarmTime ⟨ramZero, 0, 0, 0, 5⟩ 0).2.alarmTriggeredTime = 5 := by
  decide

/-- Claim C8 amended: starting from a nonzero latch, a call to isAlarmTime resets
the de-bounce latch to "never triggered" exactly when the current hour and
minute both read 0 AND the alarm bit for the current day-of-week is set; no
other call resets it. -/
theorem isAlarmTime_latch_reset_amended (s : AlarmState) (μ : Nat)
    (h : s.alarmTriggeredTime ≠ 0) :
    ((isAlarmTime s μ).2.alarmTriggeredTime = 0 ↔
      (s.hour = 0 ∧ s.minute = 0 ∧
       0 < getRAM s.ram alarmBitsAddress &&& ((1 <<< s.dow) % 256))) := by
  unfold isAlarmTime
  simp only []
  split
  · next hbit =>
    rw [if_neg (by intro hcontra; exact h hcontra.1)]
    split
    · next hmid => exact iff_of_true rfl ⟨hmid.1, hmid.2, hbit⟩
    · next hmid =>
      constructor
      · intro h0; exact absurd h0 h
      · intro hc; exact absurd ⟨hc.1, hc.2.1⟩ hmid
  · next hbit =>
    constructor
    · intro h0; exact absurd h0 h
    · intro hc; exact absurd hc.2.2 hbit

/-- Witness for C8 amended: midnight call with the day-2 bit set resets a
latch of 5 to 0. -/
theorem isAlarmTime_latch_reset_amended_witness :
    ((⟨setAlarm_code ramZero 2 30, 2, 0, 0, 5⟩ : AlarmState).alarmTriggeredTime ≠ 0) ∧
    ((isAlarmTime ⟨setAlarm_code ramZero 2 30, 2, 0, 0, 5⟩ 9).2.alarmTriggeredTime = 0 ↔
      ((⟨setAlarm_code ramZero 2 30, 2, 0, 0, 5⟩ : AlarmState).hour = 0 ∧
       (⟨setAlarm_code ramZero 2 30, 2, 0, 0, 5⟩ : AlarmState).minute = 0 ∧
       0 < getRAM (⟨setAlarm_code ramZero 2 30, 2, 0, 0, 5⟩ : AlarmState).ram alarmBitsAddress &&&
         ((1 <<< (⟨setAlarm_code ramZero 2 30, 2, 0, 0, 5⟩ : AlarmState).dow) % 256))) :=
  ⟨by decide, isAlarmTime_latch_reset_amended ⟨setAlarm_code ramZero 2 30, 2, 0, 0, 5⟩ 9 (by decide)⟩

/-! ## Termination and specification of the fillByCDN year-search loop -/

/-- Extra iteration budget beyond what the loop needs does not change the
result: the loop terminates on its own. -/
theorem fillByCDN_loopF_stable :
    ∀ (f g d y : Nat), d < 365 * f → f ≤ g →
      fillByCDN_loopF g d y = fillByCDN_loopF f d y := by
  intro f
  induction f with
  | zero => intro g d y hd _; exact absurd hd (by omega)
  | succ k ih =>
    intro g d y hd hfg
    obtain ⟨g', rfl⟩ : ∃ g', g = g' + 1 := ⟨g - 1, by omega⟩
    simp only [fillByCDN_loopF]
    have hleap := is_leap_year_lt_two y
    by_cases hle : 365 + is_leap_year y ≤ d
    · rw [if_pos hle, if_pos hle]
      exact ih g' (d - (365 + is_leap_year y)) ((y + 1) % 65536) (by omega) (by omega)
    · rw [if_neg hle, if_neg hle]

/-- The remaining day count at loop exit is below the final year's length. -/
theorem fillByCDN_loopF_rem_lt :
    ∀ (f d y : Nat), d < 365 * f →
      (fillByCDN_loopF f d y).2 < 365 + is_leap_year (fillByCDN_loopF f d y).1 := by
  intro f
  induction f with
  | zero => intro d y hd; exact absurd hd (by omega)
  | succ k ih =>
    intro d y hd
    simp only [fillByCDN_loopF]
    have hleap := is_leap_year_lt_two y
    by_cases hle : 365 + is_leap_year y ≤ d
    · rw [if_pos hle]
      exact ih (d - (365 + is_leap_year y)) ((y + 1) % 65536) (by omega)
    · rw [if_neg hle]
      simpa using by omega

/-- The year found by the loop exceeds the start year by at most the number
of iterations. -/
theorem fillByCDN_loopF_year_le :
    ∀ (f d y : Nat), (fillByCDN_loopF f d y).1 ≤ y + f := by
  intro f
  induction f with
  | zero => intro d y; simp [fillByCDN_loopF]
  | succ k ih =>
    intro d y
    simp only [fillByCDN_loopF]
    by_cases hle : 365 + is_leap_year y ≤ d
    · rw [if_pos hle]
      have h1 := ih (d - (365 + is_leap_year y)) ((y + 1) % 65536)
      have h2 : (y + 1) % 65536 ≤ y + 1 := Nat.mod_le _ _
      omega
    · rw [if_neg hle]
      simp

theorem cdn_add_years_zero (c : Nat) : cdn_add_years 0 c = c := rfl

theorem cdn_add_years_succ (n c : Nat) :
    cdn_add_years (n + 1) c = cdn_add_years n ((c + 365 + is_leap_year (2000 + n)) % 65536) := rfl

/-- The year loop of calculate_cdn undoes the year-search loop of fillByCDN:
re-accumulating the found year's predecessors onto the remaining day count
recovers the original day count. -/
theorem fillByCDN_loopF_cdn_inv :
    ∀ (f d y : Nat), 2000 ≤ y → y + f ≤ 65535 → d < 65536 → d < 365 * f →
      cdn_add_years ((fillByCDN_loopF f d y).1 - 2000) (fillByCDN_loopF f d y).2 =
        cdn_add_years (y - 2000) d := by
  intro f
  induction f with
  | zero => intro d y _ _ _ hd; exact absurd hd (by omega)
  | succ k ih =>
    intro d y hy hyf hd65 hd
    simp only [fillByCDN_loopF]
    have hleap := is_leap_year_lt_two y
    by_cases hle : 365 + is_leap_year y ≤ d
    · rw [if_pos hle]
      have hy1 : (y + 1) % 65536 = y + 1 := Nat.mod_eq_of_lt (by omega)
      rw [hy1]
      have step := ih (d - (365 + is_leap_year y)) (y + 1) (by omega) (by omega) (by omega) (by omega)
      rw [step]
      have hsub : y + 1 - 2000 = (y - 2000) + 1 := by omega
      rw [hsub, cdn_add_years_succ]
      have h2000 : 2000 + (y - 2000) = y := by omega
      rw [h2000]
      have harg : (d - (365 + is_leap_year y) + 365 + is_leap_year y) % 65536 = d := by omega
      rw [harg]
    · rw [if_neg hle]

theorem fillByCDN_loop_rem_lt (d : Nat) (hd : d < 65536) :
    (fillByCDN_loop d).2 < 365 + is_leap_year (fillByCDN_loop d).1 :=
  fillByCDN_loopF_rem_lt 180 d 2000 (by omega)

theorem fillByCDN_loop_year_le (d : Nat) : (fillByCDN_loop d).1 ≤ 2180 :=
  fillByCDN_loopF_year_le 180 d 2000

/-- On the uint16_t domain, calculate_cdn inverts the year/ydn decomposition
produced by the fillByCDN year-search loop. -/
theorem fillByCDN_loop_cdn_inv (d : Nat) (hd : d < 65536) :
    cdn_from_year_and_ydn (fillByCDN_loop d).1 ((fillByCDN_loop d).2 + 1) = d := by
  have hrem := fillByCDN_loop_rem_lt d hd
  have hleap := is_leap_year_lt_two (fillByCDN_loop d).1
  have hres : cdn_add_years ((fillByCDN_loop d).1 - 2000) (fillByCDN_loop d).2 = d := by
    have h := fillByCDN_loopF_cdn_inv 180 d 2000 (by omega) (by omega) hd (by omega)
    rw [show (2000 : Nat) - 2000 = 0 from rfl, cdn_add_years_zero] at h
    exact h
  unfold cdn_from_year_and_ydn
  have h2 : ((fillByCDN_loop d).2 + 1 + 65536 - 1) % 65536 = (fillByCDN_loop d).2 := by omega
  rw [h2]
  exact hres

/-- Claim C10: for every 16-bit input, the year-search loop of fillByCDN
terminates: each iteration removes at least 365 days, so 180 iterations
always reach the exit condition, and allotting any larger iteration budget
produces the identical result. -/
theorem fillByCDN_loop_terminates (d : Nat) (hd : d < 65536) (g : Nat) (hg : 180 ≤ g) :
    fillByCDN_loopF g d 2000 = fillByCDN_loop d :=
  fillByCDN_loopF_stable 180 g d 2000 (by omega) hg

/-- Witness for C10 at the extreme uint16_t input 65535 with budget 200. -/
theorem fillByCDN_loop_terminates_witness :
    65535 < 65536 ∧ 180 ≤ 200 ∧ fillByCDN_loopF 200 65535 2000 = fillByCDN_loop 65535 :=
  ⟨by decide, by decide, fillByCDN_loop_terminates 65535 (by decide) 200 (by decide)⟩

theorem ydn_inv_chunk : ∀ (L : Fin 2) (a : Fin 19) (b : Fin 20),
    a.1 * 20 + b.1 + 1 ≤ 365 + L.1 →
      ydn_calc L.1 (month_calc L.1 (a.1 * 20 + b.1 + 1))
        (day_calc L.1 (month_calc L.1 (a.1 * 20 + b.1 + 1)) (a.1 * 20 + b.1 + 1)) =
        a.1 * 20 + b.1 + 1 := by
  decide

theorem ydn_roundtrip (y n : Nat) (h1 : 1 ≤ n) (h2 : n ≤ 365 + is_leap_year y) :
    ydn_from_ymd y (month_from_year_and_ydn y n)
      (day_from_month_year_and_ydn y (month_from_year_and_ydn y n) n) = n := by
  have hL := is_leap_year_lt_two y
  have key : (n - 1) / 20 * 20 + (n - 1) % 20 + 1 ≤ 365 + is_leap_year y →
      ydn_calc (is_leap_year y)
        (month_calc (is_leap_year y) ((n - 1) / 20 * 20 + (n - 1) % 20 + 1))
        (day_calc (is_leap_year y)
          (month_calc (is_leap_year y) ((n - 1) / 20 * 20 + (n - 1) % 20 + 1))
          ((n - 1) / 20 * 20 + (n - 1) % 20 + 1)) =
        (n - 1) / 20 * 20 + (n - 1) % 20 + 1 :=
    ydn_inv_chunk ⟨is_leap_year y, hL⟩ ⟨(n - 1) / 20, by omega⟩ ⟨(n - 1) % 20, by omega⟩
  have hsplit : (n - 1) / 20 * 20 + (n - 1) % 20 + 1 = n := by omega
  rw [hsplit] at key
  unfold ydn_from_ymd month_from_year_and_ydn day_from_month_year_and_ydn
  exact key h2

theorem month_from_lt_256 (y n : Nat) : month_from_year_and_ydn y n < 256 := by
  unfold month_from_year_and_ydn month_calc
  exact Nat.mod_lt _ (by omega)

theorem day_from_lt_256 (y m n : Nat) : day_from_month_year_and_ydn y m n < 256 := by
  unfold day_from_month_year_and_ydn day_calc
  exact Nat.mod_lt _ (by omega)

theorem fillByCDN_fields (s : State) (c : Nat) (hc : c < 65536) :
    (fillByCDN s c).cdn = c ∧
    (fillByCDN s c).year = (fillByCDN_loop c).1 ∧
    (fillByCDN s c).ydn = (fillByCDN_loop c).2 + 1 ∧
    (fillByCDN s c).month = month_from_year_and_ydn (fillByCDN_loop c).1 ((fillByCDN_loop c).2 + 1) ∧
    (fillByCDN s c).day =
      day_from_month_year_and_ydn (fillByCDN_loop c).1
        (month_from_year_and_ydn (fillByCDN_loop c).1 ((fillByCDN_loop c).2 + 1))
        ((fillByCDN_loop c).2 + 1) ∧
    (fillByCDN s c).hour = s.hour ∧
    (fillByCDN s c).minute = s.minute ∧
    (fillByCDN s c).second = s.second ∧
    (fillByCDN s c).time2000 = time2000_from c s.hour s.minute s.second := by
  have hrem := fillByCDN_loop_rem_lt c hc
  have hleap := is_leap_year_lt_two (fillByCDN_loop c).1
  have hmod : c % 65536 = c := Nat.mod_eq_of_lt hc
  have hydn : ((fillByCDN_loop c).2 + 1) % 65536 = (fillByCDN_loop c).2 + 1 :=
    Nat.mod_eq_of_lt (by omega)
  unfold fillByCDN calculate_dow calculate_month_by_year_and_ydn
    calculate_day_by_month_year_and_ydn calculate_time2000
  simp only [hmod, hydn]
  exact ⟨trivial, trivial, trivial, trivial, trivial, trivial, trivial, trivial, trivial⟩

theorem fillByYMD_fields (s : State) (y m d : Nat) (hy : y < 65536) (hm : m < 256) (hd : d < 256) :
    (fillByYMD s y m d).cdn = cdn_from_year_and_ydn y (ydn_from_ymd y m d) ∧
    (fillByYMD s y m d).hour = s.hour ∧
    (fillByYMD s y m d).minute = s.minute ∧
    (fillByYMD s y m d).second = s.second ∧
    (fillByYMD s y m d).time2000 =
      time2000_from (cdn_from_year_and_ydn y (ydn_from_ymd y m d)) s.hour s.minute s.second := by
  have hy' : y % 65536 = y := Nat.mod_eq_of_lt hy
  have hm' : m % 256 = m := Nat.mod_eq_of_lt hm
  have hd' : d % 256 = d := Nat.mod_eq_of_lt hd
  unfold fillByYMD calculate_ydn calculate_cdn calculate_dow calculate_time2000
  simp only [hy', hm', hd']
  exact ⟨trivial, trivial, trivial, trivial, trivial⟩

theorem fillByHMS_fields (s : State) (h m sec : Nat) (hh : h < 256) (hm : m < 256) (hs : sec < 256) :
    (fillByHMS s h m sec).time2000 = time2000_from s.cdn h m sec := by
  have hh' : h % 256 = h := Nat.mod_eq_of_lt hh
  have hm' : m % 256 = m := Nat.mod_eq_of_lt hm
  have hs' : sec % 256 = sec := Nat.mod_eq_of_lt hs
  unfold fillByHMS calculate_time2000
  simp only [hh', hm', hs']

theorem time2000_from_split (t : Nat) (ht : t < 4294967296) :
    time2000_from (t / 60 / 60 / 24) (t / 60 / 60 % 24) (t / 60 % 60) (t % 60) = t := by
  unfold time2000_from
  dsimp only
  omega


/-- Claim C2: for every epoch-seconds value t below the year-2136 boundary
(t < 49673 * 86400), calling fillByTime2000(t), then reading back the civil
fields and calling fillByYMD on the date fields followed by fillByHMS on the
time fields, leaves time2000 equal to the original t. -/
theorem fillByTime2000_roundtrip (s0 : State) (t : Nat) (ht : t < 4291747200) :
    (fillByHMS
      (fillByYMD (fillByTime2000 s0 t) (fillByTime2000 s0 t).year (fillByTime2000 s0 t).month
        (fillByTime2000 s0 t).day)
      (fillByTime2000 s0 t).hour (fillByTime2000 s0 t).minute
      (fillByTime2000 s0 t).second).time2000 = t := by
  have ht32 : t < 4294967296 := by omega
  have ht0 : t % 4294967296 = t := Nat.mod_eq_of_lt ht32
  have hc : t / 60 / 60 / 24 < 65536 := by omega
  have e1 : fillByTime2000 s0 t = fillByCDN
      { s0 with time2000 := t, second := t % 60, minute := t / 60 % 60, hour := t / 60 / 60 % 24 }
      (t / 60 / 60 / 24) := by
    unfold fillByTime2000
    dsimp only
    rw [ht0]
  rw [e1]
  obtain ⟨hcdn, hyear, hydnf, hmonth, hday, hhour, hminute, hsecond, ht2000⟩ :=
    fillByCDN_fields
      { s0 with time2000 := t, second := t % 60, minute := t / 60 % 60, hour := t / 60 / 60 % 24 }
      (t / 60 / 60 / 24) hc
  rw [hyear, hmonth, hday, hhour, hminute, hsecond]
  have hS1h : ({ s0 with time2000 := t, second := t % 60, minute := t / 60 % 60, hour := t / 60 / 60 % 24 } : State).hour = t / 60 / 60 % 24 := rfl
  have hS1m : ({ s0 with time2000 := t, second := t % 60, minute := t / 60 % 60, hour := t / 60 / 60 % 24 } : State).minute = t / 60 % 60 := rfl
  have hS1s : ({ s0 with time2000 := t, second := t % 60, minute := t / 60 % 60, hour := t / 60 / 60 % 24 } : State).second = t % 60 := rfl
  rw [hS1h, hS1m, hS1s]
  have hrem := fillByCDN_loop_rem_lt (t / 60 / 60 / 24) hc
  have hyle := fillByCDN_loop_year_le (t / 60 / 60 / 24)
  have hydn_rt := ydn_roundtrip (fillByCDN_loop (t / 60 / 60 / 24)).1
    ((fillByCDN_loop (t / 60 / 60 / 24)).2 + 1) (by omega) (by omega)
  have hcdn_rt := fillByCDN_loop_cdn_inv (t / 60 / 60 / 24) hc
  obtain ⟨hcdn2, hhour2, hmin2, hsec2, ht2⟩ :=
    fillByYMD_fields
      (fillByCDN
        { s0 with time2000 := t, second := t % 60, minute := t / 60 % 60, hour := t / 60 / 60 % 24 }
        (t / 60 / 60 / 24))
      (fillByCDN_loop (t / 60 / 60 / 24)).1
      (month_from_year_and_ydn (fillByCDN_loop (t / 60 / 60 / 24)).1
        ((fillByCDN_loop (t / 60 / 60 / 24)).2 + 1))
      (day_from_month_year_and_ydn (fillByCDN_loop (t / 60 / 60 / 24)).1
        (month_from_year_and_ydn (fillByCDN_loop (t / 60 / 60 / 24)).1
          ((fillByCDN_loop (t / 60 / 60 / 24)).2 + 1))
        ((fillByCDN_loop (t / 60 / 60 / 24)).2 + 1))
      (by omega) (month_from_lt_256 _ _) (day_from_lt_256 _ _ _)
  rw [fillByHMS_fields _ _ _ _ (by omega) (by omega) (by omega)]
  rw [hcdn2, hydn_rt, hcdn_rt]
  exact time2000_from_split t ht32


/-- Witness for C2 at t = 700000000 (2022-03-07 20:26:40). -/
theorem fillByTime2000_roundtrip_witness :
    700000000 < 4291747200 ∧
    (fillByHMS
      (fillByYMD (fillByTime2000 ⟨0, 0, 0, 0, 0, 0, 0, 0, 0, 0⟩ 700000000)
        (fillByTime2000 ⟨0, 0, 0, 0, 0, 0, 0, 0, 0, 0⟩ 700000000).year
        (fillByTime2000 ⟨0, 0, 0, 0, 0, 0, 0, 0, 0, 0⟩ 700000000).month
        (fillByTime2000 ⟨0, 0, 0, 0, 0, 0, 0, 0, 0, 0⟩ 700000000).day)
      (fillByTime2000 ⟨0, 0, 0, 0, 0, 0, 0, 0, 0, 0⟩ 700000000).hour
      (fillByTime2000 ⟨0, 0, 0, 0, 0, 0, 0, 0, 0, 0⟩ 700000000).minute
      (fillByTime2000 ⟨0, 0, 0, 0, 0, 0, 0, 0, 0, 0⟩ 700000000).second).time2000 = 700000000 :=
  ⟨by decide, fillByTime2000_roundtrip ⟨0, 0, 0, 0, 0, 0, 0, 0, 0, 0⟩ 700000000 (by decide)⟩

/-- fillByTime2000 overwrites every field of the shared object, so its result
does not depend on the state it is applied to. -/
theorem fillByTime2000_state_independent (a b : State) (t : Nat) :
    fillByTime2000 a t = fillByTime2000 b t := rfl

/-- Claim C7: for every mutually consistent shared DateTime state (one that refilling
from its own epoch-seconds counter reproduces exactly), isCETSummerTime leaves
every field of the shared state equal to its value before the call. -/
theorem isCETSummerTime_state_preserved (s : State)
    (h : fillByTime2000 s s.time2000 = s) :
    (isCETSummerTime s).2 = s :=
  (fillByTime2000_state_independent _ s s.time2000).trans h

/-- Witness for C7 at the consistent state for t = 0 (2000-01-01 00:00:00,
a Saturday). -/
theorem isCETSummerTime_state_preserved_witness :
    fillByTime2000 ⟨0, 0, 0, 6, 1, 1, 2000, 1, 0, 0⟩
      (State.time2000 ⟨0, 0, 0, 6, 1, 1, 2000, 1, 0, 0⟩) = ⟨0, 0, 0, 6, 1, 1, 2000, 1, 0, 0⟩ ∧
    (isCETSummerTime ⟨0, 0, 0, 6, 1, 1, 2000, 1, 0, 0⟩).2 = ⟨0, 0, 0, 6, 1, 1, 2000, 1, 0, 0⟩ :=
  ⟨by decide, isCETSummerTime_state_preserved ⟨0, 0, 0, 6, 1, 1, 2000, 1, 0, 0⟩ (by decide)⟩

end DS1307
